import Mathlib

/-!
Shallow embedding of the calendar-grid geometry of the heatmap component
(src/src/heatmap.tsx).

Dates are represented by their epoch day number: an `Int` that increases by
one per calendar day of the proleptic Gregorian calendar (the calendar JS
`Date`/dayjs implement).  `startOfYearDay y` is the epoch day of January 1
of year `y`; it is the standard rata-die style closed form, so that the
number of days in a year is obtained as the span between consecutive
January 1sts, exactly as `getDaysInYear` in the source computes it with
`startOfNextYear.diff(startOfYear, "day")`.

Integer division `/` on `Int` is Euclidean division, which for the positive
divisors used here (4, 7, 100, 400) coincides with `Math.floor` of the real
quotient, i.e. with the JS `Math.floor(x / n)` idiom of the source.
-/

/-- The two week-start conventions of the component (`type WeekStartDay`). -/
inductive WeekStartDay where
  | monday : WeekStartDay
  | sunday : WeekStartDay
deriving DecidableEq, Repr

/-- Proleptic Gregorian leap-year predicate: divisible by 4, not by 100
unless by 400.  This is the rule the claims compare against; the source
never hardcodes it (it derives day counts from date spans). -/
def isLeapYear (y : Int) : Bool :=
  (y % 4 == 0 && y % 100 != 0) || y % 400 == 0

/-- Epoch day number of January 1 of year `y` in the proleptic Gregorian
calendar: 365 days per elapsed year plus one per leap year among the years
before `y`.  Closed rata-die form of the calendar JS dates implement. -/
def startOfYearDay (y : Int) : Int :=
  365 * y + ((y - 1) / 4 - (y - 1) / 100 + (y - 1) / 400)

/-- `getDaysInYear` of the source: the span in days between January 1 of
`year` and January 1 of `year + 1` (`startOfNextYear.diff(startOfYear, "day")`). -/
def getDaysInYear (year : Int) : Int :=
  startOfYearDay (year + 1) - startOfYearDay year

/-- `getDateFromDayOfYear` of the source: January 1 of `year` plus
`dayOfYear - 1` days, as an epoch day number
(`dayjs(year-01-01).add(dayOfYear - 1, "day")`). -/
def getDateFromDayOfYear (year dayOfYear : Int) : Int :=
  startOfYearDay year + (dayOfYear - 1)

/-- Day-of-year of the epoch day `e`, recomputed relative to January 1 of
year `y` (dayjs recomputes day-of-year as the day difference from
`startOf("year")` plus 1). -/
def dayOfYearOfDate (y e : Int) : Int :=
  e - startOfYearDay y + 1

/-- `getStartColumnForDay` of the source, line for line:
`dayIndex = dayOfYear - 1`, `gridIndex = dayIndex + firstDayOffset`,
`colIndex = Math.floor(gridIndex / 7)`, result `colIndex + 1`. -/
def getStartColumnForDay (dayOfYear firstDayOffset : Int) : Int :=
  let dayIndex := dayOfYear - 1
  let gridIndex := dayIndex + firstDayOffset
  let colIndex := gridIndex / 7
  colIndex + 1

/-- dayjs `.day()` on the epoch day `e`: 0 = Sunday .. 6 = Saturday.  The
anchor is fixed by the proleptic Gregorian weekday cycle: epoch day
`startOfYearDay 2001 = 730850` (2001-01-01) is a Monday, and
`730850 % 7 = 1`, so `.day()` is exactly `e % 7`. -/
def day (e : Int) : Int := e % 7

/-- dayjs `.isoWeekday()` on the epoch day `e`: ISO numbering 1 = Monday ..
7 = Sunday, i.e. Sunday (`day e = 0`) becomes 7. -/
def isoWeekday (e : Int) : Int :=
  if e % 7 = 0 then 7 else e % 7

/-- `config.getWeekday` of the source: `date.day()` for Sunday-start and
`date.isoWeekday() - 1` for Monday-start. -/
def getWeekday (ws : WeekStartDay) (e : Int) : Int :=
  match ws with
  | .sunday => day e
  | .monday => isoWeekday e - 1

/-- `dayjs(year-01-01)` of the component body: epoch day of January 1. -/
def firstDayOfYear (y : Int) : Int := startOfYearDay y

/-- `firstDayOffset = config.getWeekday(firstDayOfYear)` of the component. -/
def firstDayOffset (y : Int) (ws : WeekStartDay) : Int :=
  getWeekday ws (firstDayOfYear y)

/-- JS `Math.ceil(a / b)` for integer `a` and positive integer `b`. -/
def jsCeilDiv (a b : Int) : Int := -((-a) / b)

/-- `totalCols = Math.ceil((daysInYear + firstDayOffset) / 7)` of the component. -/
def totalCols (y : Int) (ws : WeekStartDay) : Int :=
  jsCeilDiv (getDaysInYear y + firstDayOffset y ws) 7

/-- `getDaysInMonth` of the source: length of 0-indexed month `m` of `year`
(dayjs `.daysInMonth()`, leap-year-correct). -/
def getDaysInMonth (year : Int) (m : Nat) : Int :=
  match m with
  | 0 => 31
  | 1 => if isLeapYear year then 29 else 28
  | 2 => 31
  | 3 => 30
  | 4 => 31
  | 5 => 30
  | 6 => 31
  | 7 => 31
  | 8 => 30
  | 9 => 31
  | 10 => 30
  | _ => 31

/-- `cumulativeDays` of the `monthStartCols` loop after `m` iterations: the
number of days of year `y` that fall before 0-indexed month `m`. -/
def cumDaysBefore (y : Int) : Nat → Int
  | 0 => 0
  | m + 1 => cumDaysBefore y m + getDaysInMonth y m

/-- `monthStartCols[m]` of the component:
`getStartColumnForDay(cumulativeDays + 1, firstDayOffset)`. -/
def monthStartCol (y : Int) (ws : WeekStartDay) (m : Nat) : Int :=
  getStartColumnForDay (cumDaysBefore y m + 1) (firstDayOffset y ws)

/-- `endCol = totalCols + 1` of the component, the virtual next-start
column used for December. -/
def endCol (y : Int) (ws : WeekStartDay) : Int := totalCols y ws + 1

/-- `span = nextStartCol - startCol` of the month-label loop, with
December (`m = 11`) using `endCol` as the virtual next start. -/
def monthSpan (y : Int) (ws : WeekStartDay) (m : Nat) : Int :=
  (if m = 11 then endCol y ws else monthStartCol y ws (m + 1)) - monthStartCol y ws m

-- Helper lemmas ------------------------------------------------------------

/-- The span construction of `getDaysInYear` agrees with the hardcoded
leap-year rule: 366 days in leap years, 365 otherwise. -/
theorem getDaysInYear_eq (y : Int) :
    getDaysInYear y = if isLeapYear y then 366 else 365 := by
  unfold getDaysInYear startOfYearDay isLeapYear
  split <;> rename_i h <;>
    simp only [Bool.or_eq_true, Bool.and_eq_true, beq_iff_eq, bne_iff_ne,
      not_or, not_and, Decidable.not_not] at h <;>
    omega

/-- The first-day offset is always in `[0, 6]`, under either convention. -/
theorem firstDayOffset_bounds (y : Int) (ws : WeekStartDay) :
    0 ≤ firstDayOffset y ws ∧ firstDayOffset y ws ≤ 6 := by
  cases ws <;>
    simp only [firstDayOffset, getWeekday, day, isoWeekday, firstDayOfYear]
  · split <;> omega
  · omega

/-- Every month length is positive. -/
theorem getDaysInMonth_pos (y : Int) (m : Nat) : 0 < getDaysInMonth y m := by
  unfold getDaysInMonth
  split <;> (try split) <;> norm_num

/-- February has 29 days in leap years and 28 otherwise, so always one of
the two. -/
theorem febDays_cases (y : Int) :
    getDaysInMonth y 1 = 29 ∨ getDaysInMonth y 1 = 28 := by
  show (if isLeapYear y then (29 : Int) else 28) = 29 ∨
    (if isLeapYear y then (29 : Int) else 28) = 28
  split <;> simp

/-- Cumulative days before each month, written relative to the one
unknown month length `getDaysInMonth y 1` (February). -/
theorem cumDaysBefore_vals (y : Int) :
    cumDaysBefore y 0 = 0 ∧
    cumDaysBefore y 1 = 31 ∧
    cumDaysBefore y 2 = 31 + getDaysInMonth y 1 ∧
    cumDaysBefore y 3 = 62 + getDaysInMonth y 1 ∧
    cumDaysBefore y 4 = 92 + getDaysInMonth y 1 ∧
    cumDaysBefore y 5 = 123 + getDaysInMonth y 1 ∧
    cumDaysBefore y 6 = 153 + getDaysInMonth y 1 ∧
    cumDaysBefore y 7 = 184 + getDaysInMonth y 1 ∧
    cumDaysBefore y 8 = 215 + getDaysInMonth y 1 ∧
    cumDaysBefore y 9 = 245 + getDaysInMonth y 1 ∧
    cumDaysBefore y 10 = 276 + getDaysInMonth y 1 ∧
    cumDaysBefore y 11 = 306 + getDaysInMonth y 1 ∧
    cumDaysBefore y 12 = 337 + getDaysInMonth y 1 := by
  have h1 : cumDaysBefore y 1 = 0 + 31 := rfl
  have h2 : cumDaysBefore y 2 = cumDaysBefore y 1 + getDaysInMonth y 1 := rfl
  have h3 : cumDaysBefore y 3 = cumDaysBefore y 2 + 31 := rfl
  have h4 : cumDaysBefore y 4 = cumDaysBefore y 3 + 30 := rfl
  have h5 : cumDaysBefore y 5 = cumDaysBefore y 4 + 31 := rfl
  have h6 : cumDaysBefore y 6 = cumDaysBefore y 5 + 30 := rfl
  have h7 : cumDaysBefore y 7 = cumDaysBefore y 6 + 31 := rfl
  have h8 : cumDaysBefore y 8 = cumDaysBefore y 7 + 31 := rfl
  have h9 : cumDaysBefore y 9 = cumDaysBefore y 8 + 30 := rfl
  have h10 : cumDaysBefore y 10 = cumDaysBefore y 9 + 31 := rfl
  have h11 : cumDaysBefore y 11 = cumDaysBefore y 10 + 30 := rfl
  have h12 : cumDaysBefore y 12 = cumDaysBefore y 11 + 31 := rfl
  have h0 : cumDaysBefore y 0 = 0 := rfl
  omega

/-- The twelve month lengths sum to the day count of the year. -/
theorem getDaysInYear_eq_cum (y : Int) :
    getDaysInYear y = 337 + getDaysInMonth y 1 := by
  rw [getDaysInYear_eq]
  show _ = 337 + (if isLeapYear y then (29 : Int) else 28)
  split <;> norm_num

/-- C1: for `dayOfYear ≥ 1` and `firstDayOffset ∈ [0, 6]`,
`getStartColumnForDay` computes `floor((dayOfYear - 1 + firstDayOffset)/7) + 1`,
is monotone non-decreasing in `dayOfYear`, and increases by exactly 1 when
`dayOfYear` increases by 7. -/
theorem getStartColumnForDay_spec (d e o : Int) (hd : 1 ≤ d) (hde : d ≤ e)
    (ho0 : 0 ≤ o) (ho6 : o ≤ 6) :
    getStartColumnForDay d o = (d - 1 + o) / 7 + 1 ∧
    getStartColumnForDay d o ≤ getStartColumnForDay e o ∧
    getStartColumnForDay (d + 7) o = getStartColumnForDay d o + 1 := by
  refine ⟨rfl, ?_, ?_⟩ <;> · simp only [getStartColumnForDay]; omega

/-- C1 witness: the spec at `dayOfYear = 8`, `e = 15`, `firstDayOffset = 1`. -/
theorem getStartColumnForDay_spec_witness :
    getStartColumnForDay 8 1 = (8 - 1 + 1) / 7 + 1 ∧
    getStartColumnForDay 8 1 ≤ getStartColumnForDay 15 1 ∧
    getStartColumnForDay (8 + 7) 1 = getStartColumnForDay 8 1 + 1 :=
  getStartColumnForDay_spec 8 15 1 (by norm_num) (by norm_num) (by norm_num)
    (by norm_num)

/-- C2: `getDaysInYear` returns 365 or 366, and returns 366 exactly for the
proleptic Gregorian leap years (divisible by 4, not by 100 unless by 400). -/
theorem getDaysInYear_leap_spec (y : Int) :
    (getDaysInYear y = 365 ∨ getDaysInYear y = 366) ∧
    (getDaysInYear y = 366 ↔ (y % 4 = 0 ∧ (y % 100 ≠ 0 ∨ y % 400 = 0))) ∧
    (getDaysInYear y = 366 ↔ isLeapYear y = true) := by
  have h := getDaysInYear_eq y
  unfold isLeapYear at h ⊢
  constructor
  · split at h <;> omega
  · constructor <;>
    · split at h <;> rename_i hb <;>
        simp only [Bool.or_eq_true, Bool.and_eq_true, beq_iff_eq, bne_iff_ne,
          not_or, not_and, Decidable.not_not] at hb ⊢ <;>
        omega

/-- C3: the 12 month spans start at column 1, are consecutive (each month's
start plus its span is the next month's start, December closing at the
virtual column `totalCols + 1`), are non-negative, and sum to exactly
`totalCols`, for every year and week-start convention. -/
theorem monthSpans_partition_spec (y : Int) (ws : WeekStartDay) (m : Nat)
    (hm : m < 12) :
    monthStartCol y ws 0 = 1 ∧
    0 ≤ monthSpan y ws m ∧
    monthStartCol y ws m + monthSpan y ws m =
      (if m = 11 then totalCols y ws + 1 else monthStartCol y ws (m + 1)) ∧
    monthSpan y ws 0 + monthSpan y ws 1 + monthSpan y ws 2 + monthSpan y ws 3 +
      monthSpan y ws 4 + monthSpan y ws 5 + monthSpan y ws 6 + monthSpan y ws 7 +
      monthSpan y ws 8 + monthSpan y ws 9 + monthSpan y ws 10 + monthSpan y ws 11 =
      totalCols y ws := by
  obtain ⟨ho0, ho6⟩ := firstDayOffset_bounds y ws
  have hstart0 : monthStartCol y ws 0 = 1 := by
    have hc0 : cumDaysBefore y 0 = 0 := rfl
    simp only [monthStartCol, getStartColumnForDay, hc0]
    omega
  have hconsec : monthStartCol y ws m + monthSpan y ws m =
      (if m = 11 then totalCols y ws + 1 else monthStartCol y ws (m + 1)) := by
    simp only [monthSpan, endCol]
    omega
  have hmono : ∀ k : Nat, monthStartCol y ws k ≤ monthStartCol y ws (k + 1) := by
    intro k
    have hp := getDaysInMonth_pos y k
    have hs : cumDaysBefore y (k + 1) = cumDaysBefore y k + getDaysInMonth y k :=
      rfl
    simp only [monthStartCol, getStartColumnForDay, hs]
    omega
  have hnonneg : 0 ≤ monthSpan y ws m := by
    by_cases h11 : m = 11
    · subst h11
      obtain ⟨e0, e1, e2, e3, e4, e5, e6, e7, e8, e9, e10, e11, e12⟩ :=
        cumDaysBefore_vals y
      have hD := getDaysInYear_eq_cum y
      have hF : 28 ≤ getDaysInMonth y 1 ∧ getDaysInMonth y 1 ≤ 29 := by
        rcases febDays_cases y with h | h <;> omega
      simp only [monthSpan, endCol, totalCols, jsCeilDiv, monthStartCol,
        getStartColumnForDay, reduceIte, e11, hD]
      omega
    · have hk := hmono m
      simp only [monthSpan, endCol, if_neg h11]
      omega
  refine ⟨hstart0, hnonneg, hconsec, ?_⟩
  simp only [monthSpan, endCol, reduceIte, Nat.reduceAdd]
  omega

/-- C3 witness: the partition statement instantiated at year 2024,
Sunday-start, December. -/
theorem monthSpans_partition_spec_witness :
    monthStartCol 2024 .sunday 0 = 1 ∧
    0 ≤ monthSpan 2024 .sunday 11 ∧
    monthStartCol 2024 .sunday 11 + monthSpan 2024 .sunday 11 =
      (if 11 = 11 then totalCols 2024 .sunday + 1
       else monthStartCol 2024 .sunday (11 + 1)) ∧
    monthSpan 2024 .sunday 0 + monthSpan 2024 .sunday 1 +
      monthSpan 2024 .sunday 2 + monthSpan 2024 .sunday 3 +
      monthSpan 2024 .sunday 4 + monthSpan 2024 .sunday 5 +
      monthSpan 2024 .sunday 6 + monthSpan 2024 .sunday 7 +
      monthSpan 2024 .sunday 8 + monthSpan 2024 .sunday 9 +
      monthSpan 2024 .sunday 10 + monthSpan 2024 .sunday 11 =
      totalCols 2024 .sunday :=
  monthSpans_partition_spec 2024 .sunday 11 (by norm_num)

/-- C6: for every year and day-of-year in range, `getDateFromDayOfYear` is
January 1 plus `dayOfYear - 1` days, the resulting date lies within the
year (so its year is `y`), and recomputing its day-of-year (day difference
from January 1 plus 1) gives back `dayOfYear`. -/
theorem dateFromDayOfYear_roundtrip_spec (y d : Int) (h1 : 1 ≤ d)
    (h2 : d ≤ getDaysInYear y) :
    getDateFromDayOfYear y d = startOfYearDay y + (d - 1) ∧
    startOfYearDay y ≤ getDateFromDayOfYear y d ∧
    getDateFromDayOfYear y d < startOfYearDay (y + 1) ∧
    dayOfYearOfDate y (getDateFromDayOfYear y d) = d := by
  unfold getDateFromDayOfYear dayOfYearOfDate getDaysInYear at *
  refine ⟨rfl, by omega, by omega, by omega⟩

/-- C6 witness: the round trip at year 2024, day-of-year 366. -/
theorem dateFromDayOfYear_roundtrip_spec_witness :
    getDateFromDayOfYear 2024 366 = startOfYearDay 2024 + (366 - 1) ∧
    startOfYearDay 2024 ≤ getDateFromDayOfYear 2024 366 ∧
    getDateFromDayOfYear 2024 366 < startOfYearDay (2024 + 1) ∧
    dayOfYearOfDate 2024 (getDateFromDayOfYear 2024 366) = 366 :=
  dateFromDayOfYear_roundtrip_spec 2024 366 (by norm_num) (by decide)

/-- C7: the Sunday-start offset is the natural 0=Sunday..6=Saturday
numbering (`.day()`), the Monday-start offset is the ISO weekday minus 1,
which is exactly the rotation Monday→0..Sunday→6 of the natural numbering,
and both conventions stay within `[0, 6]`. -/
theorem weekday_offset_spec (ws : WeekStartDay) (e : Int) :
    getWeekday .sunday e = day e ∧
    day e = e % 7 ∧
    getWeekday .monday e = isoWeekday e - 1 ∧
    (1 ≤ isoWeekday e ∧ isoWeekday e ≤ 7 ∧ (isoWeekday e = 7 ↔ day e = 0)) ∧
    getWeekday .monday e = (day e + 6) % 7 ∧
    0 ≤ getWeekday ws e ∧ getWeekday ws e ≤ 6 := by
  cases ws <;>
    simp only [getWeekday, day, isoWeekday] <;>
    split <;> simp_all <;> omega

/-- C8: the two concrete scenarios of the spec.  2024 is a leap year
(366 days), 2024-01-01 is a Monday so the Sunday-start offset is 1 and the
grid has ceil((366+1)/7) = 53 columns; 2025 has 365 days, 2025-01-01 is a
Wednesday (ISO weekday 3) so the Monday-start offset is 2 and the grid has
ceil((365+2)/7) = 53 columns. -/
theorem concrete_scenarios_spec :
    getDaysInYear 2024 = 366 ∧
    day (startOfYearDay 2024) = 1 ∧
    firstDayOffset 2024 .sunday = 1 ∧
    totalCols 2024 .sunday = 53 ∧
    getDaysInYear 2025 = 365 ∧
    isoWeekday (startOfYearDay 2025) = 3 ∧
    firstDayOffset 2025 .monday = 2 ∧
    totalCols 2025 .monday = 53 := by
  decide

/-- `DayCellProps` of the source: the descriptor handed to `renderDay`.
`date` and `dayOfYear` are `none` for placeholder cells; dates are epoch
day numbers. -/
structure DayCellProps where
  date : Option Int
  dayOfYear : Option Int
  colIndex : Int
  rowIndex : Int
  isEmpty : Bool
deriving DecidableEq, Repr

/-- The day-cell descriptor built by the grid enumeration of the component:
`dayOfYear = colIdx * 7 + rowIdx + 1 - firstDayOffset`, empty iff
`dayOfYear <= 0 || dayOfYear > daysInYear`, with `date` resolved through
`getDateFromDayOfYear` otherwise. -/
def mkDayCell (y : Int) (ws : WeekStartDay) (colIdx rowIdx : Int) :
    DayCellProps :=
  let dayOfYear := colIdx * 7 + rowIdx + 1 - firstDayOffset y ws
  let isEmpty : Bool := decide (dayOfYear ≤ 0 ∨ getDaysInYear y < dayOfYear)
  { date := if isEmpty then none else some (getDateFromDayOfYear y dayOfYear)
    dayOfYear := if isEmpty then none else some dayOfYear
    colIndex := colIdx
    rowIndex := rowIdx
    isEmpty := isEmpty }

/-- A cell whose computed day-of-year is out of range is the all-`none`
placeholder. -/
theorem mkDayCell_empty (y : Int) (ws : WeekStartDay) (c r : Int)
    (h : c * 7 + r + 1 - firstDayOffset y ws ≤ 0 ∨
      getDaysInYear y < c * 7 + r + 1 - firstDayOffset y ws) :
    mkDayCell y ws c r = ⟨none, none, c, r, true⟩ := by
  simp only [mkDayCell]
  rw [decide_eq_true h]
  simp

/-- A cell whose computed day-of-year is in range carries the concrete date
and day-of-year. -/
theorem mkDayCell_filled (y : Int) (ws : WeekStartDay) (c r : Int)
    (h1 : 0 < c * 7 + r + 1 - firstDayOffset y ws)
    (h2 : c * 7 + r + 1 - firstDayOffset y ws ≤ getDaysInYear y) :
    mkDayCell y ws c r =
      ⟨some (getDateFromDayOfYear y (c * 7 + r + 1 - firstDayOffset y ws)),
       some (c * 7 + r + 1 - firstDayOffset y ws), c, r, false⟩ := by
  have h : ¬ (c * 7 + r + 1 - firstDayOffset y ws ≤ 0 ∨
      getDaysInYear y < c * 7 + r + 1 - firstDayOffset y ws) := by omega
  simp only [mkDayCell]
  rw [decide_eq_false h]
  simp

/-- C4: for every grid cell, the descriptor is the empty placeholder with
`date` and `dayOfYear` null exactly when the computed day-of-year is out of
`[1, daysInYear]`; otherwise it is non-empty, with the date resolved by
`getDateFromDayOfYear`. -/
theorem dayCell_placeholder_spec (y : Int) (ws : WeekStartDay) (c r d : Int)
    (hc0 : 0 ≤ c) (hc : c < totalCols y ws) (hr0 : 0 ≤ r) (hr : r < 7)
    (hd : d = c * 7 + r + 1 - firstDayOffset y ws) :
    (((mkDayCell y ws c r).isEmpty = true ∧ (mkDayCell y ws c r).date = none ∧
        (mkDayCell y ws c r).dayOfYear = none) ↔
      (d ≤ 0 ∨ getDaysInYear y < d)) ∧
    (¬ (d ≤ 0 ∨ getDaysInYear y < d) →
      (mkDayCell y ws c r).isEmpty = false ∧
      (mkDayCell y ws c r).date = some (getDateFromDayOfYear y d) ∧
      (mkDayCell y ws c r).dayOfYear = some d) := by
  subst hd
  by_cases h : (c * 7 + r + 1 - firstDayOffset y ws ≤ 0 ∨
      getDaysInYear y < c * 7 + r + 1 - firstDayOffset y ws)
  · rw [mkDayCell_empty y ws c r h]
    exact ⟨⟨fun _ => h, fun _ => ⟨rfl, rfl, rfl⟩⟩, fun hn => absurd h hn⟩
  · rw [mkDayCell_filled y ws c r (by omega) (by omega)]
    exact ⟨⟨fun hx => Bool.noConfusion hx.1, fun hcond => absurd hcond h⟩,
      fun _ => ⟨rfl, rfl, rfl⟩⟩

/-- C4 witness: year 2024 Sunday-start; cell (0,0) is a placeholder
(offset 1 puts January 1 at row 1), cell (0,1) holds day-of-year 1. -/
theorem dayCell_placeholder_spec_witness :
    (((mkDayCell 2024 .sunday 0 1).isEmpty = true ∧
        (mkDayCell 2024 .sunday 0 1).date = none ∧
        (mkDayCell 2024 .sunday 0 1).dayOfYear = none) ↔
      ((1 : Int) ≤ 0 ∨ getDaysInYear 2024 < 1)) ∧
    (¬ ((1 : Int) ≤ 0 ∨ getDaysInYear 2024 < 1) →
      (mkDayCell 2024 .sunday 0 1).isEmpty = false ∧
      (mkDayCell 2024 .sunday 0 1).date = some (getDateFromDayOfYear 2024 1) ∧
      (mkDayCell 2024 .sunday 0 1).dayOfYear = some 1) :=
  dayCell_placeholder_spec 2024 .sunday 0 1 1 (by norm_num) (by decide)
    (by norm_num) (by norm_num) (by decide)

/-- Cumulative days before a month grow with the month index. -/
theorem cumDaysBefore_mono (y : Int) {m n : Nat} (h : m ≤ n) :
    cumDaysBefore y m ≤ cumDaysBefore y n := by
  induction h with
  | refl => exact le_refl _
  | @step k h2 ih =>
      have hp := getDaysInMonth_pos y k
      have hs : cumDaysBefore y (k + 1) =
          cumDaysBefore y k + getDaysInMonth y k := rfl
      show cumDaysBefore y m ≤ cumDaysBefore y (k + 1)
      omega

/-- C5: the first-day offset lies in `[0, 6]`, and every day-of-year in
`[1, daysInYear]` occupies exactly one cell of the `totalCols × 7` grid (a
non-placeholder cell carrying that day), while a grid cell is a placeholder
exactly when its computed day-of-year falls outside `[1, daysInYear]`. -/
theorem grid_assignment_spec (y : Int) (ws : WeekStartDay) (d : Int)
    (h1 : 1 ≤ d) (h2 : d ≤ getDaysInYear y) :
    (0 ≤ firstDayOffset y ws ∧ firstDayOffset y ws ≤ 6) ∧
    (∃ c r : Int, (0 ≤ c ∧ c < totalCols y ws ∧ 0 ≤ r ∧ r < 7) ∧
      c * 7 + r + 1 - firstDayOffset y ws = d ∧
      (mkDayCell y ws c r).isEmpty = false ∧
      (mkDayCell y ws c r).dayOfYear = some d ∧
      (∀ c2 r2 : Int, 0 ≤ c2 → c2 < totalCols y ws → 0 ≤ r2 → r2 < 7 →
        c2 * 7 + r2 + 1 - firstDayOffset y ws = d → c2 = c ∧ r2 = r)) ∧
    (∀ c2 r2 : Int, 0 ≤ c2 → c2 < totalCols y ws → 0 ≤ r2 → r2 < 7 →
      ((mkDayCell y ws c2 r2).isEmpty = true ↔
        (c2 * 7 + r2 + 1 - firstDayOffset y ws ≤ 0 ∨
          getDaysInYear y < c2 * 7 + r2 + 1 - firstDayOffset y ws))) := by
  obtain ⟨ho0, ho6⟩ := firstDayOffset_bounds y ws
  refine ⟨⟨ho0, ho6⟩, ?_, ?_⟩
  · refine ⟨(d - 1 + firstDayOffset y ws) / 7,
      (d - 1 + firstDayOffset y ws) % 7, ?_, ?_, ?_, ?_, ?_⟩
    · constructor
      · omega
      · refine ⟨?_, ?_, ?_⟩
        · simp only [totalCols, jsCeilDiv]
          omega
        · omega
        · omega
    · omega
    · rw [mkDayCell_filled y ws _ _ (by omega) (by omega)]
    · rw [mkDayCell_filled y ws _ _ (by omega) (by omega)]
      simp only [Option.some.injEq]
      omega
    · intro c2 r2 hc0 hc hr0 hr he
      omega
  · intro c2 r2 hc0 hc hr0 hr
    by_cases h : (c2 * 7 + r2 + 1 - firstDayOffset y ws ≤ 0 ∨
        getDaysInYear y < c2 * 7 + r2 + 1 - firstDayOffset y ws)
    · rw [mkDayCell_empty y ws c2 r2 h]
      exact ⟨fun _ => h, fun _ => rfl⟩
    · rw [mkDayCell_filled y ws c2 r2 (by omega) (by omega)]
      exact ⟨fun hx => Bool.noConfusion hx, fun hcond => absurd hcond h⟩

/-- C5 witness: day-of-year 60 of 2024 (Sunday-start) sits in exactly one
cell of the 53 × 7 grid. -/
theorem grid_assignment_spec_witness :
    (0 ≤ firstDayOffset 2024 .sunday ∧ firstDayOffset 2024 .sunday ≤ 6) ∧
    (∃ c r : Int, (0 ≤ c ∧ c < totalCols 2024 .sunday ∧ 0 ≤ r ∧ r < 7) ∧
      c * 7 + r + 1 - firstDayOffset 2024 .sunday = 60 ∧
      (mkDayCell 2024 .sunday c r).isEmpty = false ∧
      (mkDayCell 2024 .sunday c r).dayOfYear = some 60 ∧
      (∀ c2 r2 : Int, 0 ≤ c2 → c2 < totalCols 2024 .sunday → 0 ≤ r2 → r2 < 7 →
        c2 * 7 + r2 + 1 - firstDayOffset 2024 .sunday = 60 → c2 = c ∧ r2 = r)) ∧
    (∀ c2 r2 : Int, 0 ≤ c2 → c2 < totalCols 2024 .sunday → 0 ≤ r2 → r2 < 7 →
      ((mkDayCell 2024 .sunday c2 r2).isEmpty = true ↔
        (c2 * 7 + r2 + 1 - firstDayOffset 2024 .sunday ≤ 0 ∨
          getDaysInYear 2024 < c2 * 7 + r2 + 1 - firstDayOffset 2024 .sunday))) :=
  grid_assignment_spec 2024 .sunday 60 (by norm_num) (by decide)

/-- C10: for every non-placeholder cell of the enumeration,
`getStartColumnForDay` of its day-of-year is exactly `colIndex + 1`, and
each month's 1-indexed start column is 1 plus the column index of the cell
holding the month's first day, so the two column formulas agree. -/
theorem cell_column_consistency_spec (y : Int) (ws : WeekStartDay)
    (c r d : Int) (m : Nat) (hc0 : 0 ≤ c) (hr0 : 0 ≤ r) (hr : r < 7)
    (hd : d = c * 7 + r + 1 - firstDayOffset y ws) (h1 : 1 ≤ d)
    (hm : m < 12) :
    getStartColumnForDay d (firstDayOffset y ws) = c + 1 ∧
    (∃ c2 r2 : Int, (0 ≤ c2 ∧ c2 < totalCols y ws ∧ 0 ≤ r2 ∧ r2 < 7) ∧
      c2 * 7 + r2 + 1 - firstDayOffset y ws = cumDaysBefore y m + 1 ∧
      monthStartCol y ws m = c2 + 1) := by
  obtain ⟨ho0, ho6⟩ := firstDayOffset_bounds y ws
  constructor
  · simp only [getStartColumnForDay]
    omega
  · have hnn : (0 : Int) ≤ cumDaysBefore y m := by
      have h0 : cumDaysBefore y 0 = 0 := rfl
      have := cumDaysBefore_mono y (Nat.zero_le m)
      omega
    have hub : cumDaysBefore y m + 31 ≤ getDaysInYear y := by
      have h11 : cumDaysBefore y m ≤ cumDaysBefore y 11 :=
        cumDaysBefore_mono y (by omega)
      have h12 : cumDaysBefore y 12 = cumDaysBefore y 11 + 31 := rfl
      have hD := getDaysInYear_eq_cum y
      obtain ⟨e0, e1, e2, e3, e4, e5, e6, e7, e8, e9, e10, e11, e12⟩ :=
        cumDaysBefore_vals y
      omega
    refine ⟨(cumDaysBefore y m + firstDayOffset y ws) / 7,
      (cumDaysBefore y m + firstDayOffset y ws) % 7, ?_, ?_, ?_⟩
    · constructor
      · omega
      · refine ⟨?_, ?_, ?_⟩
        · simp only [totalCols, jsCeilDiv]
          omega
        · omega
        · omega
    · omega
    · simp only [monthStartCol, getStartColumnForDay]
      omega

/-- C10 witness: year 2025, Monday-start (offset 2): the cell (0, 2) holds
day-of-year 1 and its column matches `getStartColumnForDay`; January's
label starts at 1 plus the column of the cell holding day 1. -/
theorem cell_column_consistency_spec_witness :
    getStartColumnForDay 1 (firstDayOffset 2025 .monday) = 0 + 1 ∧
    (∃ c2 r2 : Int, (0 ≤ c2 ∧ c2 < totalCols 2025 .monday ∧ 0 ≤ r2 ∧ r2 < 7) ∧
      c2 * 7 + r2 + 1 - firstDayOffset 2025 .monday = cumDaysBefore 2025 0 + 1 ∧
      monthStartCol 2025 .monday 0 = c2 + 1) :=
  cell_column_consistency_spec 2025 .monday 0 2 1 0 (by norm_num) (by norm_num)
    (by norm_num) (by decide) (by norm_num) (by norm_num)

/-- The defaulted configuration options of the `Heatmap` component.  The
weekday-label layout is the string union type of the source,
`"left" | "center" | "right"`. -/
structure HeatmapDefaults where
  year : Int
  weekStartDay : WeekStartDay
  cellSize : Int
  gap : Int
  containerGap : Int
  weekDayLabelLayout : String
  monthLabelMarginBottom : Int
deriving DecidableEq, Repr

/-- The default parameter values of the `Heatmap` component signature:
`year = 2025`, `weekStartDay = "sunday"`, `cellSize = 16`, `gap = 4`,
`containerGap = 18`, `weekDayLabelLayout = "left"`,
`monthLabelMarginBottom = 4`. -/
def heatmapDefaults : HeatmapDefaults :=
  { year := 2025
    weekStartDay := .sunday
    cellSize := 16
    gap := 4
    containerGap := 18
    weekDayLabelLayout := "left"
    monthLabelMarginBottom := 4 }

/-- The `justifyContent` CSS value `DefaultWeekdayLabel` derives from the
layout option: `"center"` gives `"center"`, `"right"` gives `"flex-end"`,
anything else (including the default `"left"`) gives `"flex-start"`. -/
def justifyContentFor (layout : String) : String :=
  if layout = "center" then "center"
  else if layout = "right" then "flex-end"
  else "flex-start"

/-- C9 counterexample: the default weekday-label layout value is the
string `"left"`, not `"start"`, and `"start"` is not a member of the
source enumeration `"left" | "center" | "right"` at all. -/
theorem weekDayLabelLayout_default_counterexample :
    heatmapDefaults.weekDayLabelLayout = "left" ∧
    heatmapDefaults.weekDayLabelLayout ≠ "start" ∧
    ¬ ("start" = "left" ∨ "start" = "center" ∨ "start" = "right") := by
  decide

/-- C9 amended: with options omitted the defaults are Sunday-start,
`cellSize = 16`, `gap = 4`, `containerGap = 18`, and
`weekDayLabelLayout = "left"` from the enumeration left/center/right,
which the default renderer lays out as `flex-start` alignment. -/
theorem heatmap_defaults_amended_spec :
    heatmapDefaults.weekStartDay = .sunday ∧
    heatmapDefaults.cellSize = 16 ∧
    heatmapDefaults.gap = 4 ∧
    heatmapDefaults.containerGap = 18 ∧
    heatmapDefaults.weekDayLabelLayout = "left" ∧
    justifyContentFor heatmapDefaults.weekDayLabelLayout = "flex-start" ∧
    justifyContentFor "center" = "center" ∧
    justifyContentFor "right" = "flex-end" := by
  decide
